import Mathlib

/-!
Shallow embedding of the repository script src/trigger-builds.py.

The script shells out to the external `eas` CLI. We model the external
world as an `Env` giving the outcome of each `subprocess.run` call with
`check=True`: the spawned process can exit zero, exit non-zero (which
raises `subprocess.CalledProcessError`, carried here with its printed
string form), or fail to launch entirely (which raises an `OSError`
such as `FileNotFoundError`, not a `CalledProcessError`).

Each modelled function returns the list of observable effects it
performs (console prints, spawned argv lists, sleeps) together with a
`PyResult`: a normal return value, or an exception that propagates
uncaught out of the function. `sys.exit(n)` is modelled as terminating
normally with process exit status `n`; falling off the end of `main`
is exit status `0`.
-/

namespace TriggerBuilds

/-- Outcome of one `subprocess.run argv check=True` call in the external
environment. -/
inductive SubprocResult where
  | success : SubprocResult
  | calledProcessError : String → SubprocResult
  | launchError : String → SubprocResult
deriving DecidableEq

/-- The external environment: what `subprocess.run` does for a given argv. -/
structure Env where
  run : List String → SubprocResult

/-- Observable effects of the script: console prints, spawned external
commands (argv lists), and sleeps (in seconds). -/
inductive Effect where
  | print : String → Effect
  | spawn : List String → Effect
  | sleep : Nat → Effect
deriving DecidableEq

/-- Whether an effect is the spawning of an external process. -/
def Effect.isSpawn : Effect → Bool
  | .spawn _ => true
  | _ => false

/-- Result of running a Python function: a normal return value, or an
exception propagating uncaught (carried as its message). -/
inductive PyResult (α : Type) where
  | ok : α → PyResult α
  | raised : String → PyResult α
deriving DecidableEq

/-- The fixed argv built at the top of `run_build_command`
(line 9 of src/trigger-builds.py):
`cmd = ["eas", "build", "--profile", "preview", "--platform", platform]`. -/
def buildCmd (platform : String) : List String :=
  ["eas", "build", "--profile", "preview", "--platform", platform]

/-- Embedding of `run_build_command(platform)`
(lines 7-26 of src/trigger-builds.py). Prints a header, then: for
`"android"`, prints the manual instructions and returns `False` without
spawning anything; otherwise calls
`subprocess.run(cmd + ["--non-interactive"], check=True)` and returns
`True` on exit status zero, catches `subprocess.CalledProcessError`
(printing the error and returning `False`), and lets any other
exception (for example a launch failure) propagate. -/
def run_build_command (env : Env) (platform : String) :
    List Effect × PyResult Bool :=
  let cmd := buildCmd platform
  let header : List Effect :=
    [Effect.print ("\n🚀 Starting " ++ platform.toUpper ++ " build...")]
  if platform == "android" then
    (header ++
      [Effect.print "⚠️  Note: For Android, you need to manually accept the keystore generation.",
       Effect.print "   Please run: eas build --profile preview --platform android",
       Effect.print "   And select 'Yes' when prompted to generate a keystore"],
     PyResult.ok false)
  else
    let full := cmd ++ ["--non-interactive"]
    match env.run full with
    | SubprocResult.success =>
        (header ++ [Effect.spawn full], PyResult.ok true)
    | SubprocResult.calledProcessError e =>
        (header ++ [Effect.spawn full,
          Effect.print ("❌ Build failed: " ++ e)], PyResult.ok false)
    | SubprocResult.launchError e =>
        (header ++ [Effect.spawn full], PyResult.raised e)

/-- Embedding of the tail of `main` from `time.sleep(2)` onward
(lines 48-58 of src/trigger-builds.py): the continuation `main` runs
exactly when `android_success` is true. Sleeps two seconds, runs the
iOS build, prints the success banner when it returned `True`, prints
the next-steps text, and falls off the end of `main` (exit status 0).
If `run_build_command` raises, the exception propagates. -/
def main_iosPhase (env : Env) : List Effect × PyResult Nat :=
  let res := run_build_command env "ios"
  match res.2 with
  | PyResult.raised e => (Effect.sleep 2 :: res.1, PyResult.raised e)
  | PyResult.ok ios_success =>
      (Effect.sleep 2 :: res.1 ++
        (if ios_success then
          [Effect.print "\n✅ iOS build triggered successfully!"]
         else []) ++
        [Effect.print "\n📝 Next steps:",
         Effect.print "1. Monitor builds at: https://expo.dev/accounts/siva9177/projects/expo-fullstack-starter/builds",
         Effect.print "2. Download and install builds when ready",
         Effect.print "3. Test OAuth flow with your local server running"],
       PyResult.ok 0)

/-- Embedding of `main()` (lines 28-58 of src/trigger-builds.py).
Prints the banner, runs the Android build; when it reports failure,
prints the guidance and calls `sys.exit(1)`; otherwise continues with
`main_iosPhase`. -/
def main (env : Env) : List Effect × PyResult Nat :=
  let banner : List Effect :=
    [Effect.print "🚀 EAS Preview Build Trigger",
     Effect.print "============================",
     Effect.print "",
     Effect.print "📱 Build Profile: preview",
     Effect.print "🔧 API URL: http://192.168.1.101:8081",
     Effect.print "🔐 OAuth: Google OAuth configured",
     Effect.print "",
     Effect.print "First, let's handle Android..."]
  let resA := run_build_command env "android"
  match resA.2 with
  | PyResult.raised e => (banner ++ resA.1, PyResult.raised e)
  | PyResult.ok android_success =>
      if !android_success then
        (banner ++ resA.1 ++
          [Effect.print "\n❗ Android build requires manual interaction.",
           Effect.print "After you've generated the Android keystore, you can run:",
           Effect.print "   eas build --profile preview --platform ios --non-interactive",
           Effect.print "To build for iOS."],
         PyResult.ok 1)
      else
        let resRest := main_iosPhase env
        (banner ++ resA.1 ++ resRest.1, resRest.2)

/-- An environment in which every spawn exits with status zero. -/
def envAllSuccess : Env := ⟨fun _ => SubprocResult.success⟩

/-- An environment in which every spawn exits non-zero, raising
`subprocess.CalledProcessError`. -/
def envCalledFail : Env :=
  ⟨fun _ => SubprocResult.calledProcessError "Command eas returned non-zero exit status 1."⟩

/-- An environment in which every spawn fails to launch, raising
`FileNotFoundError`. -/
def envLaunchFail : Env :=
  ⟨fun _ => SubprocResult.launchError "No such file or directory: eas"⟩

/-- C1: in every environment, `main` terminates the process with exit
status 1, and its effect trace contains no spawned external command at
all — in particular `run_build_command` is never reached with the iOS
platform value, since every one of its invocation outcomes on a
non-Android platform puts an `Effect.spawn` in the trace. The Android
branch unconditionally reports failure, so the iOS invocation at the
end of `main` is unreachable. -/
theorem main_exits_one_and_never_spawns (env : Env) :
    (main env).2 = PyResult.ok 1 ∧
    (main env).1.filter Effect.isSpawn = [] :=
  ⟨rfl, rfl⟩

/-- C2: for the `"android"` platform value, `run_build_command` returns
`False` in every environment, spawns no external process, and prints the
manual-instruction text. -/
theorem android_always_fails_without_spawn (env : Env) :
    (run_build_command env "android").2 = PyResult.ok false ∧
    (run_build_command env "android").1.filter Effect.isSpawn = [] ∧
    Effect.print "   Please run: eas build --profile preview --platform android"
      ∈ (run_build_command env "android").1 :=
  ⟨rfl, rfl, List.Mem.tail _ (List.Mem.tail _ (List.Mem.head _))⟩

/-- C5: in every environment, `main` exits with status 1 exactly when the
Android step reported failure, and exits with status 0 exactly when the
Android step reported success (the Android step always reports failure,
so the first pair of equivalent statements is always true and the second
pair always false). -/
theorem exit_status_mirrors_android_step (env : Env) :
    ((main env).2 = PyResult.ok 1 ↔
      (run_build_command env "android").2 = PyResult.ok false) ∧
    ((main env).2 = PyResult.ok 0 ↔
      (run_build_command env "android").2 = PyResult.ok true) :=
  ⟨⟨fun _ => rfl, fun _ => rfl⟩,
   ⟨(fun h => nomatch h), (fun h => nomatch h)⟩⟩

/-- Unfolding equation for `run_build_command` on any platform other than
`"android"`: the function prints the header, spawns
`buildCmd p ++ ["--non-interactive"]`, and maps the three possible
subprocess outcomes to `ok true`, `ok false` (with the error printed),
and an uncaught exception respectively. -/
theorem run_build_command_eq_of_ne (env : Env) (p : String) (hp : p ≠ "android") :
    run_build_command env p =
      (match env.run (buildCmd p ++ ["--non-interactive"]) with
       | SubprocResult.success =>
           ([Effect.print ("\n🚀 Starting " ++ p.toUpper ++ " build..."),
             Effect.spawn (buildCmd p ++ ["--non-interactive"])], PyResult.ok true)
       | SubprocResult.calledProcessError e =>
           ([Effect.print ("\n🚀 Starting " ++ p.toUpper ++ " build..."),
             Effect.spawn (buildCmd p ++ ["--non-interactive"]),
             Effect.print ("❌ Build failed: " ++ e)], PyResult.ok false)
       | SubprocResult.launchError e =>
           ([Effect.print ("\n🚀 Starting " ++ p.toUpper ++ " build..."),
             Effect.spawn (buildCmd p ++ ["--non-interactive"])], PyResult.raised e)) := by
  have hb : (p == "android") = false := by simp [hp]
  unfold run_build_command
  simp only [hb, Bool.false_eq_true, if_false]
  rfl

/-- C3 as stated is false: when the external invocation cannot be launched
at all (the subprocess call raises an `OSError` rather than a
`CalledProcessError`), `run_build_command "ios"` does not return `False`
— the exception propagates uncaught. Concrete input: an environment in
which every spawn fails to launch. -/
theorem ios_launch_failure_is_not_returned_false :
    (run_build_command envLaunchFail "ios").2 =
      PyResult.raised "No such file or directory: eas" ∧
    (run_build_command envLaunchFail "ios").2 ≠ PyResult.ok false := by
  exact ⟨rfl, by decide⟩

/-- C3 amended: for the iOS platform value, `run_build_command` returns
`True` if the external invocation exits with status zero, and returns
`False` after printing the captured error message if it exits non-zero
(raising `CalledProcessError`); a launch failure instead propagates as
an uncaught exception. -/
theorem ios_result_follows_subprocess_outcome (env : Env) (msg : String) :
    (env.run (buildCmd "ios" ++ ["--non-interactive"]) = SubprocResult.success →
      (run_build_command env "ios").2 = PyResult.ok true) ∧
    (env.run (buildCmd "ios" ++ ["--non-interactive"]) =
        SubprocResult.calledProcessError msg →
      (run_build_command env "ios").2 = PyResult.ok false ∧
      Effect.print ("❌ Build failed: " ++ msg) ∈ (run_build_command env "ios").1) ∧
    (env.run (buildCmd "ios" ++ ["--non-interactive"]) = SubprocResult.launchError msg →
      (run_build_command env "ios").2 = PyResult.raised msg) := by
  refine ⟨fun h => ?_, fun h => ?_, fun h => ?_⟩
  · rw [run_build_command_eq_of_ne env "ios" (by decide), h]
  · rw [run_build_command_eq_of_ne env "ios" (by decide), h]
    exact ⟨rfl, List.Mem.tail _ (List.Mem.tail _ (List.Mem.head _))⟩
  · rw [run_build_command_eq_of_ne env "ios" (by decide), h]

/-- Witness for the amended C3 at concrete environments: one in which the
spawn exits zero, one in which it exits non-zero, one in which it fails
to launch. -/
theorem ios_result_follows_subprocess_outcome_witness :
    (run_build_command envAllSuccess "ios").2 = PyResult.ok true ∧
    (run_build_command envCalledFail "ios").2 = PyResult.ok false ∧
    (run_build_command envLaunchFail "ios").2 =
      PyResult.raised "No such file or directory: eas" :=
  ⟨(ios_result_follows_subprocess_outcome envAllSuccess "").1 rfl,
   (((ios_result_follows_subprocess_outcome envCalledFail
       "Command eas returned non-zero exit status 1.").2.1) rfl).1,
   (ios_result_follows_subprocess_outcome envLaunchFail
       "No such file or directory: eas").2.2 rfl⟩

/-- C4: a spawned process exiting non-zero (raising
`subprocess.CalledProcessError`) around the single non-interactive iOS
call is caught locally inside `run_build_command`: the error message is
printed and the function returns the flag `False` (an `ok` value, not a
propagating exception). -/
theorem nonzero_exit_caught_and_returned_as_flag (env : Env) (msg : String)
    (h : env.run (buildCmd "ios" ++ ["--non-interactive"]) =
      SubprocResult.calledProcessError msg) :
    (run_build_command env "ios").2 = PyResult.ok false ∧
    Effect.print ("❌ Build failed: " ++ msg) ∈ (run_build_command env "ios").1 := by
  rw [run_build_command_eq_of_ne env "ios" (by decide), h]
  exact ⟨rfl, List.Mem.tail _ (List.Mem.tail _ (List.Mem.head _))⟩

/-- Witness for C4 at a concrete environment whose spawns exit non-zero. -/
theorem nonzero_exit_caught_and_returned_as_flag_witness :
    (run_build_command envCalledFail "ios").2 = PyResult.ok false ∧
    Effect.print
        ("❌ Build failed: " ++ "Command eas returned non-zero exit status 1.")
      ∈ (run_build_command envCalledFail "ios").1 :=
  nonzero_exit_caught_and_returned_as_flag envCalledFail
    "Command eas returned non-zero exit status 1." rfl

/-- C8: only `subprocess.CalledProcessError` is caught; a launch failure
(`OSError`, such as the `eas` executable not being found) raised by the
subprocess invocation propagates uncaught out of `run_build_command`
instead of being converted to a returned `False`. -/
theorem launch_failure_propagates_uncaught (env : Env) (p msg : String)
    (hp : p ≠ "android")
    (h : env.run (buildCmd p ++ ["--non-interactive"]) =
      SubprocResult.launchError msg) :
    (run_build_command env p).2 = PyResult.raised msg := by
  rw [run_build_command_eq_of_ne env p hp, h]

/-- Witness for C8 at a concrete environment whose spawns fail to launch. -/
theorem launch_failure_propagates_uncaught_witness :
    (run_build_command envLaunchFail "ios").2 =
      PyResult.raised "No such file or directory: eas" :=
  launch_failure_propagates_uncaught envLaunchFail "ios"
    "No such file or directory: eas" (by decide) rfl

/-- C6: every external invocation made by `run_build_command` uses the
fixed argv `buildCmd p` with `--non-interactive` appended, and happens
only on the non-Android branch (the Android branch spawns nothing). -/
theorem every_spawn_uses_fixed_argv (env : Env) (p : String) (c : List String)
    (h : Effect.spawn c ∈ (run_build_command env p).1) :
    p ≠ "android" ∧ c = buildCmd p ++ ["--non-interactive"] := by
  by_cases hp : p = "android"
  · subst hp
    have hmem : Effect.spawn c ∈
        (run_build_command env "android").1.filter Effect.isSpawn :=
      List.mem_filter.2 ⟨h, rfl⟩
    rw [show (run_build_command env "android").1.filter Effect.isSpawn = []
        from rfl] at hmem
    exact absurd hmem (List.not_mem_nil _)
  · refine ⟨hp, ?_⟩
    rw [run_build_command_eq_of_ne env p hp] at h
    revert h
    cases env.run (buildCmd p ++ ["--non-interactive"]) <;> intro h <;>
      simp at h <;> exact h

/-- Witness for C6: in an all-success environment, the iOS run does spawn,
and the conclusion instantiates at that spawn. -/
theorem every_spawn_uses_fixed_argv_witness :
    ("ios" : String) ≠ "android" ∧
    (["eas", "build", "--profile", "preview", "--platform", "ios",
        "--non-interactive"] : List String) =
      buildCmd "ios" ++ ["--non-interactive"] :=
  every_spawn_uses_fixed_argv envAllSuccess "ios"
    ["eas", "build", "--profile", "preview", "--platform", "ios",
     "--non-interactive"] (by decide)

/-- C7: the continuation of `main` taken when the Android step reports
success begins with the fixed two-second sleep, followed immediately by
the full effect trace of the iOS `run_build_command` invocation: the
sleep occurs after the Android invocation returned and before the iOS
invocation starts. -/
theorem sleep_two_before_ios_attempt (env : Env) :
    ∃ rest, (main_iosPhase env).1 =
      (Effect.sleep 2 :: (run_build_command env "ios").1) ++ rest := by
  simp only [main_iosPhase]
  cases (run_build_command env "ios").2 with
  | raised e => exact ⟨[], by simp⟩
  | ok b =>
      refine ⟨(if b then [Effect.print "\n✅ iOS build triggered successfully!"]
          else []) ++
        [Effect.print "\n📝 Next steps:",
         Effect.print "1. Monitor builds at: https://expo.dev/accounts/siva9177/projects/expo-fullstack-starter/builds",
         Effect.print "2. Download and install builds when ready",
         Effect.print "3. Test OAuth flow with your local server running"], ?_⟩
      simp [List.append_assoc]

/-- C10: for every platform string other than the exact value
`"android"`, `run_build_command` takes the non-interactive path and
spawns the external command with that arbitrary string as the
`--platform` argument plus `--non-interactive`. -/
theorem any_nonandroid_platform_spawns (env : Env) (p : String)
    (hp : p ≠ "android") :
    Effect.spawn (buildCmd p ++ ["--non-interactive"]) ∈
      (run_build_command env p).1 := by
  rw [run_build_command_eq_of_ne env p hp]
  cases env.run (buildCmd p ++ ["--non-interactive"]) <;>
    exact List.Mem.tail _ (List.Mem.head _)

/-- Witness for C10 at a platform string that is neither of the two
documented literal values. -/
theorem any_nonandroid_platform_spawns_witness :
    Effect.spawn (buildCmd "web" ++ ["--non-interactive"]) ∈
      (run_build_command envAllSuccess "web").1 :=
  any_nonandroid_platform_spawns envAllSuccess "web" (by decide)

/-- The error message printed on a caught `CalledProcessError` never
coincides with the iOS success banner, whatever the captured error text:
the two strings differ at their first character. -/
theorem err_print_ne_banner (e : String) :
    "❌ Build failed: " ++ e ≠ "\n✅ iOS build triggered successfully!" := by
  intro h
  have h2 := congrArg String.data h
  rw [String.data_append] at h2
  have h3 := congrArg List.head? h2
  have h4 : List.head? ("❌ Build failed: ".data ++ e.data) = some '❌' := rfl
  rw [h4] at h3
  exact absurd h3 (by decide)

/-- No invocation outcome of the iOS `run_build_command` puts the success
banner in its trace: the banner is printed by `main`, not by
`run_build_command`. -/
theorem banner_not_in_ios_run_trace (env : Env) :
    Effect.print "\n✅ iOS build triggered successfully!"
      ∉ (run_build_command env "ios").1 := by
  rw [run_build_command_eq_of_ne env "ios" (by decide)]
  cases env.run (buildCmd "ios" ++ ["--non-interactive"]) with
  | success => decide
  | launchError e =>
      simp only [List.mem_cons, List.not_mem_nil, or_false]
      rintro (h1 | h2)
      · exact absurd (Effect.print.inj h1) (by decide)
      · exact Effect.noConfusion h2
  | calledProcessError e =>
      simp only [List.mem_cons, List.not_mem_nil, or_false]
      rintro (h1 | h2 | h3)
      · exact absurd (Effect.print.inj h1) (by decide)
      · exact Effect.noConfusion h2
      · exact err_print_ne_banner e (Effect.print.inj h3).symm

/-- C9: on the path where the Android step reported success, the process
exit status is 0 regardless of whether the iOS `run_build_command`
returned `True` or `False`: the continuation always prints the
next-steps text and completes normally, and the iOS result controls
exactly whether the success banner is printed. -/
theorem ios_result_does_not_affect_exit (env : Env) (b : Bool)
    (h : (run_build_command env "ios").2 = PyResult.ok b) :
    (main_iosPhase env).2 = PyResult.ok 0 ∧
    Effect.print "\n📝 Next steps:" ∈ (main_iosPhase env).1 ∧
    (Effect.print "\n✅ iOS build triggered successfully!"
        ∈ (main_iosPhase env).1 ↔ b = true) := by
  have hnb := banner_not_in_ios_run_trace env
  simp only [main_iosPhase]
  rw [h]
  refine ⟨rfl, by simp, ?_⟩
  cases b with
  | true => simp
  | false =>
      simp only [if_false, Bool.false_eq_true, iff_false]
      simp [hnb]

/-- Witness for C9 at a concrete environment in which the iOS invocation
succeeds, so the Android-success continuation exits with status 0 and
prints the banner. -/
theorem ios_result_does_not_affect_exit_witness :
    (main_iosPhase envAllSuccess).2 = PyResult.ok 0 ∧
    Effect.print "\n📝 Next steps:" ∈ (main_iosPhase envAllSuccess).1 ∧
    (Effect.print "\n✅ iOS build triggered successfully!"
        ∈ (main_iosPhase envAllSuccess).1 ↔ true = true) :=
  ios_result_does_not_affect_exit envAllSuccess true rfl

end TriggerBuilds
